import Mathlib

/-!
Shallow embedding of `src/models/answer.js` from node-neo4j-template: the
Answer entity, its validation rules, and the repository operations
(get, getAll, create, patch, del, follow, unfollow, getFollowingAndOthers).

The JavaScript file is callback-based: every repository operation issues one
`db.cypher` call and interprets the store's reply `(err, results)` inside the
cypher callback. We embed each operation as a total function from the
operation's inputs and the store reply to an `Outcome`, which records how the
operation completed:
  - `threw e`: a synchronous JavaScript `throw` escaped the method before the
    store was ever contacted (so the caller's callback is never invoked);
  - `callbackError e`: the callback was invoked as `callback(err)`;
  - `callbackSuccess v`: the callback was invoked as `callback(null, v...)`;
  - `crashed`: a runtime TypeError was raised inside the cypher callback
    (property access on `undefined`), so the caller's callback is never
    invoked with either a result or an error.

JavaScript `undefined` for a string-valued slot is modelled as `none` of
`Option String`; string length is modelled with Lean's `String.length`
(the strings the validation rules accept are ASCII, where this coincides
with JavaScript's UTF-16 `length`).
-/

deriving instance DecidableEq for Except

namespace AnswerModel

/-- Errors observable by callers of the module. `validationError` models
`errors.ValidationError` (the `errors` module of the repository);
`genericError` models a plain `new Error(message)`; `clientError code msg`
models a `neo4j.ClientError` whose `neo4j.code` field is `code`;
`otherError` models any other error value coming back from the store. -/
inductive JsError where
  | validationError (message : String)
  | genericError (message : String)
  | clientError (code : String) (message : String)
  | otherError (message : String)
deriving DecidableEq, Repr

/-- A persisted node: an opaque bag of properties of which only `answername`
is interpreted by this module. `answername = none` models a node whose
property bag lacks the key (JavaScript `undefined`); `rest` carries the
uninterpreted pass-through properties. -/
structure Node where
  answername : Option String
  rest : List (String × String)
deriving DecidableEq, Repr

/-- An Answer instance wraps one node, mirroring the private constructor
`function Answer(_node) { this._node = _node; }`. -/
structure Answer where
  _node : Node
deriving DecidableEq, Repr

/-- Getter `Answer.prototype.answername`: reads
`this._node.properties['answername']`. -/
def Answer.answername (a : Answer) : Option String :=
  a._node.answername

/-- Caller-provided properties. The only officially recognized field is
`answername`; `none` models the key being absent (or `undefined`). The
unrecognized fields a caller may also pass are never read by the module
(validation iterates over `VALIDATION_INFO` only), so they are not modelled. -/
structure Props where
  answername : Option String
deriving DecidableEq, Repr

/-- Per-field validation info, one entry of `Answer.VALIDATION_INFO`.
`minLength`/`maxLength` are `0` when absent (JavaScript falsy, so the
corresponding check is skipped), matching the `if (info.minLength && ...)`
guards in the source. -/
structure ValidationInfo where
  required : Bool
  minLength : Nat
  maxLength : Nat
  message : String
deriving DecidableEq, Repr

/-- The `answername` entry of `Answer.VALIDATION_INFO`. -/
def answernameInfo : ValidationInfo :=
  { required := true
    minLength := 2
    maxLength := 16
    message := "2-16 characters; letters, numbers, and underscores only." }

/-- Membership in the character class `[A-Za-z0-9_]`. -/
def isWordChar (c : Char) : Bool :=
  ('A' ≤ c && c ≤ 'Z') || ('a' ≤ c && c ≤ 'z') || ('0' ≤ c && c ≤ '9') || c = '_'

/-- The regular expression `/^[A-Za-z0-9_]+$/` as a total test: the string is
nonempty and every character lies in the class. -/
def matchesPattern (s : String) : Bool :=
  !(s == "") && s.toList.all isWordChar

/-- JavaScript truthiness test `!val` for a possibly-undefined string value:
true exactly when the value is `undefined` or the empty string. -/
def jsFalsy : Option String → Bool
  | none => true
  | some s => s == ""

/-- JavaScript string coercion of a possibly-undefined value, as performed by
the `+` concatenations building error messages. -/
def jsShow : Option String → String
  | none => "undefined"
  | some s => s

/-- Translation of `validateProp(prop, val, required)`: checks one candidate
value against `answernameInfo` (the only entry of `VALIDATION_INFO`, and the
only `prop` the module ever passes). A thrown `ValidationError` is returned
as `Except.error`. -/
def validateProp (prop : String) (val : Option String) (required : Bool) :
    Except JsError Unit :=
  let info := answernameInfo
  let message := info.message
  if jsFalsy val then
    if info.required && required then
      .error (.validationError ("Missing " ++ prop ++ " (required)."))
    else
      .ok ()
  else
    let s := jsShow val
    if info.minLength ≠ 0 && decide (s.length < info.minLength) then
      .error (.validationError
        ("Invalid " ++ prop ++ " (too short). Requirements: " ++ message))
    else if info.maxLength ≠ 0 && decide (s.length > info.maxLength) then
      .error (.validationError
        ("Invalid " ++ prop ++ " (too long). Requirements: " ++ message))
    else if !matchesPattern s then
      .error (.validationError
        ("Invalid " ++ prop ++ " (format). Requirements: " ++ message))
    else
      .ok ()

/-- Translation of `validate(props, required)`: iterates over the keys of
`VALIDATION_INFO` (just `answername`), validates each, and returns the safe
subset. A thrown error propagates as `Except.error`. -/
def validate (props : Props) (required : Bool) : Except JsError Props :=
  match validateProp "answername" props.answername required with
  | .error e => .error e
  | .ok () => .ok { answername := props.answername }

/-- Translation of `isConstraintViolation(err)`: the error is a
`neo4j.ClientError` whose code is the schema constraint-violation code.
With `err` null (`none`) the `instanceof` test is false. -/
def isConstraintViolation : Option JsError → Bool
  | some (.clientError code _) => code == "Neo.ClientError.Schema.ConstraintViolation"
  | _ => false

/-- How a repository operation completes, as observed by its caller. Exactly
one constructor applies per call, mirroring the single control path each
cypher callback takes in the source. -/
inductive Outcome (α : Type) where
  | threw (e : JsError)
  | callbackError (e : JsError)
  | callbackSuccess (v : α)
  | crashed
deriving DecidableEq, Repr

/-- A result row of a query whose RETURN clause is `RETURN answer`: a mapping
from the alias `answer` to a whole node. -/
structure AnswerRow where
  answer : Node
deriving DecidableEq, Repr

/-- A result row of the `getFollowingAndOthers` query
(`RETURN other, COUNT(rel)`): the node under alias `other` and the
relationship count under alias `COUNT(rel)`. -/
structure FollowRow where
  other : Node
  countRel : Nat
deriving DecidableEq, Repr

/-- A store reply as delivered to a cypher callback: an error (null on
success) and the sequence of result rows. -/
structure Reply (ρ : Type) where
  err : Option JsError
  results : List ρ
deriving DecidableEq, Repr

/-- The constraint-violation remapping shared verbatim by `patch` and
`create`: `err = new errors.ValidationError("The answername ‘" +
props.answername + "’ is taken.")` when `isConstraintViolation(err)`,
otherwise the error is left as is. -/
def remapConstraintViolation (props : Props) (err : Option JsError) :
    Option JsError :=
  if isConstraintViolation err then
    some (.validationError
      ("The answername ‘" ++ jsShow props.answername ++ "’ is taken."))
  else
    err

/-- Translation of `Answer.prototype.patch(props, callback)` applied to the
store reply its cypher callback receives. The result pairs the outcome with
the value of `self._node` after the call (the node is reassigned only on the
success path). `validate(props)` is called with `required` absent (falsy);
if it throws, the store is never contacted and the callback never runs. -/
def patch (selfNode : Node) (props : Props) (reply : Reply AnswerRow) :
    Outcome Unit × Node :=
  match validate props false with
  | .error e => (.threw e, selfNode)
  | .ok _safeProps =>
    match remapConstraintViolation props reply.err with
    | some e => (.callbackError e, selfNode)
    | none =>
      match reply.results with
      | [] =>
        (.callbackError (.genericError
          ("Answer has been deleted! Answername: " ++ jsShow selfNode.answername)),
         selfNode)
      | row :: _ => (.callbackSuccess (), row.answer)

/-- Translation of `Answer.prototype.del(callback)`: the cypher callback is
`function (err) { callback(err); }`, so the store error (or null) is handed
to the caller unchanged. -/
def del (err : Option JsError) : Outcome Unit :=
  match err with
  | some e => .callbackError e
  | none => .callbackSuccess ()

/-- Translation of `Answer.prototype.follow(other, callback)`: same reply
handling as `del`. -/
def follow (err : Option JsError) : Outcome Unit :=
  match err with
  | some e => .callbackError e
  | none => .callbackSuccess ()

/-- Translation of `Answer.prototype.unfollow(other, callback)`: same reply
handling as `del`. -/
def unfollow (err : Option JsError) : Outcome Unit :=
  match err with
  | some e => .callbackError e
  | none => .callbackSuccess ()

/-- The row loop of `getFollowingAndOthers`: walks the result rows in store
order; a row whose node's `answername` is `===`-equal to the subject's is
skipped; otherwise the row's node goes to `following` when `COUNT(rel)` is
truthy (nonzero) and to `others` when it is `0`. -/
def partitionRows (selfName : Option String) :
    List FollowRow → List Answer × List Answer
  | [] => ([], [])
  | row :: rows =>
    let tail := partitionRows selfName rows
    if selfName = row.other.answername then
      tail
    else if row.countRel ≠ 0 then
      (⟨row.other⟩ :: tail.1, tail.2)
    else
      (tail.1, ⟨row.other⟩ :: tail.2)

/-- Translation of `Answer.prototype.getFollowingAndOthers(callback)` applied
to the store reply: on error the error is passed through; otherwise the rows
are partitioned and the callback receives `(null, following, others)`. -/
def getFollowingAndOthers (selfNode : Node) (reply : Reply FollowRow) :
    Outcome (List Answer × List Answer) :=
  match reply.err with
  | some e => .callbackError e
  | none => .callbackSuccess (partitionRows selfNode.answername reply.results)

/-- Translation of the static `Answer.get(answername, callback)` applied to
the store reply: an error passes through; zero rows yield
`new Error('No such answer with answername: ' + answername)`; otherwise the
entity is built from the first row. -/
def get (answername : String) (reply : Reply AnswerRow) : Outcome Answer :=
  match reply.err with
  | some e => .callbackError e
  | none =>
    match reply.results with
    | [] =>
      .callbackError (.genericError
        ("No such answer with answername: " ++ answername))
    | row :: _ => .callbackSuccess ⟨row.answer⟩

/-- Translation of the static `Answer.getAll(callback)` applied to the store
reply: an error passes through; otherwise every row is wrapped into an
entity, in order, and an empty row list is a valid empty success. -/
def getAll (reply : Reply AnswerRow) : Outcome (List Answer) :=
  match reply.err with
  | some e => .callbackError e
  | none => .callbackSuccess (reply.results.map fun row => ⟨row.answer⟩)

/-- Translation of the static `Answer.create(props, callback)` applied to the
store reply. Note two facts taken directly from the source: `create` calls
`validate(props)` with the `required` argument absent (falsy), and its
success branch reads `results[0]['answer']` without a length guard — when
the reply carries no error and zero rows, `results[0]` is `undefined` and
the property access raises a TypeError inside the cypher callback, modelled
as `crashed`. -/
def create (props : Props) (reply : Reply AnswerRow) : Outcome Answer :=
  match validate props false with
  | .error e => .threw e
  | .ok _safeProps =>
    match remapConstraintViolation props reply.err with
    | some e => .callbackError e
    | none =>
      match reply.results with
      | [] => .crashed
      | row :: _ => .callbackSuccess ⟨row.answer⟩

/-! ## Helper lemmas -/

lemma beq_empty_eq_false {s : String} (hs : s ≠ "") : (s == "") = false := by
  simpa using hs

lemma validateProp_nonempty_ok_iff (s : String) (hs : s ≠ "") (required : Bool) :
    validateProp "answername" (some s) required = Except.ok () ↔
      2 ≤ s.length ∧ s.length ≤ 16 ∧ matchesPattern s = true := by
  have hbe : (s == "") = false := beq_empty_eq_false hs
  unfold validateProp
  simp only [jsFalsy, jsShow, answernameInfo, hbe, Bool.false_eq_true, if_false,
    decide_eq_true_eq, Bool.not_eq_true']
  split_ifs with h1 h2 h3
  · simp only [reduceCtorEq, false_iff]
    intro h
    revert h1
    simp
    omega
  · simp only [reduceCtorEq, false_iff]
    intro h
    revert h2
    simp
    omega
  · simp only [reduceCtorEq, false_iff]
    intro h
    revert h3
    simp [h.2.2]
  · simp only [true_iff]
    refine ⟨?_, ?_, ?_⟩
    · revert h1
      simp
    · revert h2
      simp
    · revert h3
      simp

lemma validateProp_length17_too_long (s : String) (h : s.length = 17)
    (required : Bool) :
    validateProp "answername" (some s) required =
      Except.error (.validationError
        ("Invalid answername (too long). Requirements: " ++ answernameInfo.message)) := by
  have hs : s ≠ "" := by
    intro e
    rw [e] at h
    exact absurd h (by decide)
  have hbe : (s == "") = false := beq_empty_eq_false hs
  unfold validateProp
  simp [jsFalsy, jsShow, answernameInfo, hbe, h]

lemma validate_mk_ok_iff (val : Option String) (required : Bool) :
    validate { answername := val } required = Except.ok { answername := val } ↔
      validateProp "answername" val required = Except.ok () := by
  unfold validate
  rcases h : validateProp "answername" val required with e | u
  · simp
  · simp

/-! ## Claim theorems -/

/-- C1: validation of the `answername` field with `required = true` accepts a
candidate string exactly when its length lies in [2, 16] and it fully matches
`[A-Za-z0-9_]+`; `"ab"` is accepted, `"a"` is rejected as too short, every
17-character string is rejected as too long, and `"a b"` is rejected for
pattern mismatch, each rejection being a `ValidationError` carrying the
human-readable requirement message. -/
theorem c1_answername_required_validation :
    (∀ s : String,
        validateProp "answername" (some s) true = Except.ok () ↔
          2 ≤ s.length ∧ s.length ≤ 16 ∧ matchesPattern s = true)
    ∧ validateProp "answername" (some "ab") true = Except.ok ()
    ∧ validateProp "answername" (some "a") true =
        Except.error (.validationError
          ("Invalid answername (too short). Requirements: " ++ answernameInfo.message))
    ∧ (∀ s : String, s.length = 17 →
        validateProp "answername" (some s) true =
          Except.error (.validationError
            ("Invalid answername (too long). Requirements: " ++ answernameInfo.message)))
    ∧ validateProp "answername" (some "a b") true =
        Except.error (.validationError
          ("Invalid answername (format). Requirements: " ++ answernameInfo.message)) := by
  refine ⟨?_, by decide, by decide, ?_, by decide⟩
  · intro s
    by_cases hs : s = ""
    · subst hs
      decide
    · exact validateProp_nonempty_ok_iff s hs true
  · intro s h
    exact validateProp_length17_too_long s h true

/-- Witness for C1 at concrete inputs: the characterization applied to
`"ab"`, and the too-long clause applied to a concrete 17-character string. -/
theorem c1_answername_required_validation_witness :
    validateProp "answername" (some "ab") true = Except.ok ()
    ∧ validateProp "answername" (some "abcdefghijklmnopq") true =
        Except.error (.validationError
          ("Invalid answername (too long). Requirements: " ++ answernameInfo.message)) :=
  ⟨(c1_answername_required_validation.1 "ab").mpr (by decide),
   c1_answername_required_validation.2.2.2.1 "abcdefghijklmnopq" (by decide)⟩

/-- C8 counterexample: the property mapping `{ answername: "" }` has the
recognized field present, and its value violates the minimum-length bound,
yet `validate` with `required = false` succeeds — JavaScript truthiness makes
`validateProp` treat the empty string like an absent value, so a present
field is not always checked against the length bounds. -/
theorem c8_counterexample_empty_string_passes :
    validate { answername := some "" } false = Except.ok { answername := some "" }
    ∧ "".length < answernameInfo.minLength := by
  decide

/-- C8 (amended): with `required = false`, absent fields pass without error,
and so does a present empty-string value (presence is decided by JavaScript
truthiness, which conflates the empty string with absence); every present
nonempty value is checked against the length bounds and the pattern, so a
present invalid value such as a 1-character or non-matching string is
rejected with a ValidationError. -/
theorem c8_optional_validation_amended :
    validate { answername := none } false = Except.ok { answername := none }
    ∧ validate { answername := some "" } false = Except.ok { answername := some "" }
    ∧ (∀ s : String, s ≠ "" →
        (validate { answername := some s } false = Except.ok { answername := some s } ↔
          2 ≤ s.length ∧ s.length ≤ 16 ∧ matchesPattern s = true))
    ∧ validateProp "answername" (some "a") false =
        Except.error (.validationError
          ("Invalid answername (too short). Requirements: " ++ answernameInfo.message))
    ∧ validateProp "answername" (some "a b") false =
        Except.error (.validationError
          ("Invalid answername (format). Requirements: " ++ answernameInfo.message)) := by
  refine ⟨by decide, by decide, ?_, by decide, by decide⟩
  intro s hs
  rw [validate_mk_ok_iff]
  exact validateProp_nonempty_ok_iff s hs false

/-- Witness for C8 (amended) at the concrete nonempty string `"ab"`. -/
theorem c8_optional_validation_amended_witness :
    validate { answername := some "ab" } false = Except.ok { answername := some "ab" } :=
  (c8_optional_validation_amended.2.2.1 "ab" (by decide)).mpr (by decide)

/-- C2: a store reply whose error is a uniqueness-constraint violation (a
ClientError with code `Neo.ClientError.Schema.ConstraintViolation`) makes
`create` deliver a ValidationError whose message embeds the submitted
`answername` in the "is taken" phrasing (so the raw constraint-violation
error is never surfaced), while any other store error is delivered to the
caller unchanged; `patch` remaps identically. -/
theorem c2_constraint_violation_remap :
    (∀ (props : Props) (name msg : String) (rows : List AnswerRow) (sp : Props),
        props.answername = some name →
        validate props false = Except.ok sp →
        create props
            ⟨some (.clientError "Neo.ClientError.Schema.ConstraintViolation" msg), rows⟩ =
          .callbackError (.validationError ("The answername ‘" ++ name ++ "’ is taken.")))
    ∧ (∀ (props : Props) (e : JsError) (rows : List AnswerRow) (sp : Props),
        validate props false = Except.ok sp →
        isConstraintViolation (some e) = false →
        create props ⟨some e, rows⟩ = .callbackError e)
    ∧ (∀ (selfNode : Node) (props : Props) (name msg : String)
          (rows : List AnswerRow) (sp : Props),
        props.answername = some name →
        validate props false = Except.ok sp →
        patch selfNode props
            ⟨some (.clientError "Neo.ClientError.Schema.ConstraintViolation" msg), rows⟩ =
          (.callbackError (.validationError ("The answername ‘" ++ name ++ "’ is taken.")),
           selfNode))
    ∧ (∀ (selfNode : Node) (props : Props) (e : JsError)
          (rows : List AnswerRow) (sp : Props),
        validate props false = Except.ok sp →
        isConstraintViolation (some e) = false →
        patch selfNode props ⟨some e, rows⟩ = (.callbackError e, selfNode)) := by
  refine ⟨?_, ?_, ?_, ?_⟩
  · intro props name msg rows sp hname hv
    simp [create, hv, remapConstraintViolation, isConstraintViolation, hname, jsShow]
  · intro props e rows sp hv hcv
    simp [create, hv, remapConstraintViolation, hcv]
  · intro selfNode props name msg rows sp hname hv
    simp [patch, hv, remapConstraintViolation, isConstraintViolation, hname, jsShow]
  · intro selfNode props e rows sp hv hcv
    simp [patch, hv, remapConstraintViolation, hcv]

/-- Witness for C2 at concrete inputs: a constraint-violation reply to
`create` for the name `"ab"`, and an unrelated store error passed through. -/
theorem c2_constraint_violation_remap_witness :
    create { answername := some "ab" }
        ⟨some (.clientError "Neo.ClientError.Schema.ConstraintViolation" "boom"), []⟩ =
      .callbackError (.validationError ("The answername ‘" ++ "ab" ++ "’ is taken."))
    ∧ create { answername := some "ab" } ⟨some (.otherError "boom"), []⟩ =
        .callbackError (.otherError "boom") :=
  ⟨c2_constraint_violation_remap.1 { answername := some "ab" } "ab" "boom" []
      { answername := some "ab" } rfl (by decide),
   c2_constraint_violation_remap.2.1 { answername := some "ab" } (.otherError "boom") []
      { answername := some "ab" } (by decide) rfl⟩

/-- C4: when the store reply to `patch` carries no error but zero rows (the
target node no longer exists), `patch` delivers a distinct entity-missing
error naming the answername of the in-memory node, and leaves the node
unchanged — the zero-row outcome is never treated as success. -/
theorem c4_patch_zero_rows_entity_missing :
    ∀ (selfNode : Node) (props sp : Props),
      validate props false = Except.ok sp →
      patch selfNode props ⟨none, []⟩ =
        (.callbackError (.genericError
          ("Answer has been deleted! Answername: " ++ jsShow selfNode.answername)),
         selfNode) := by
  intro selfNode props sp hv
  simp [patch, hv, remapConstraintViolation, isConstraintViolation]

/-- Witness for C4 at a concrete node and property mapping. -/
theorem c4_patch_zero_rows_entity_missing_witness :
    patch ⟨some "bob", []⟩ { answername := some "ab" } ⟨none, []⟩ =
      (.callbackError (.genericError
        ("Answer has been deleted! Answername: " ++ jsShow (some "bob"))),
       ⟨some "bob", []⟩) :=
  c4_patch_zero_rows_entity_missing ⟨some "bob", []⟩ { answername := some "ab" }
    { answername := some "ab" } (by decide)

/-- C5: a successful `patch` replaces the in-memory node wholesale with the
node the store returned in the first result row — independent of the previous
in-memory node and of the caller-supplied fields; equivalently, on an
error-free nonempty reply the new node is exactly the returned node. -/
theorem c5_patch_success_replaces_node_wholesale :
    (∀ (selfNode : Node) (props : Props) (reply : Reply AnswerRow),
        (patch selfNode props reply).1 = Outcome.callbackSuccess () →
        ∃ row rest, reply.results = row :: rest ∧
          (patch selfNode props reply).2 = row.answer)
    ∧ (∀ (selfNode : Node) (props sp : Props) (row : AnswerRow)
          (rest : List AnswerRow),
        validate props false = Except.ok sp →
        patch selfNode props ⟨none, row :: rest⟩ =
          (Outcome.callbackSuccess (), row.answer)) := by
  constructor
  · intro s p r h
    rcases hv : validate p false with e | sp
    · simp [patch, hv] at h
    · rcases hre : remapConstraintViolation p r.err with _ | e
      · rcases hres : r.results with _ | ⟨row, rest⟩
        · simp [patch, hv, hre, hres] at h
        · exact ⟨row, rest, rfl, by simp [patch, hv, hre, hres]⟩
      · simp [patch, hv, hre] at h
  · intro s p sp row rest hv
    simp [patch, hv, remapConstraintViolation, isConstraintViolation]

/-- Witness for C5: a concrete successful patch replaces the node `bob` with
the node returned by the store, including its pass-through properties. -/
theorem c5_patch_success_replaces_node_wholesale_witness :
    patch ⟨some "bob", []⟩ { answername := some "al" }
        ⟨none, [⟨⟨some "al", [("k", "v")]⟩⟩]⟩ =
      (Outcome.callbackSuccess (), ⟨some "al", [("k", "v")]⟩) :=
  c5_patch_success_replaces_node_wholesale.2 ⟨some "bob", []⟩
    { answername := some "al" } { answername := some "al" }
    ⟨⟨some "al", [("k", "v")]⟩⟩ [] (by decide)

/-- C7: a `get` whose reply carries no error and zero rows fails with the
no-such-answer error naming the key — an error built with the generic-error
kind, which is distinguishable from the ValidationError kind — and a reply
with at least one row succeeds with exactly one entity built from the first
row. -/
theorem c7_get_not_found_and_first_row :
    (∀ name : String,
        get name ⟨none, []⟩ =
          .callbackError (.genericError ("No such answer with answername: " ++ name)))
    ∧ (∀ (name : String) (row : AnswerRow) (rest : List AnswerRow),
        get name ⟨none, row :: rest⟩ = .callbackSuccess ⟨row.answer⟩)
    ∧ (∀ m m' : String, JsError.genericError m ≠ JsError.validationError m') := by
  refine ⟨?_, ?_, ?_⟩
  · intro name
    simp [get]
  · intro name row rest
    simp [get]
  · intro m m' h
    exact JsError.noConfusion h

/-- Witness for C7 at the concrete key `"ab"` and a concrete one-row reply. -/
theorem c7_get_not_found_and_first_row_witness :
    get "ab" ⟨none, []⟩ =
      .callbackError (.genericError ("No such answer with answername: " ++ "ab"))
    ∧ get "ab" ⟨none, [⟨⟨some "ab", []⟩⟩]⟩ = .callbackSuccess ⟨⟨some "ab", []⟩⟩ :=
  ⟨c7_get_not_found_and_first_row.1 "ab",
   c7_get_not_found_and_first_row.2.1 "ab" ⟨⟨some "ab", []⟩⟩ []⟩

/-- C9: on every `patch` call that does not reach the success path — thrown
validation error, store error, remapped constraint violation, or the
zero-row case — the in-memory node is left unchanged; the node is reassigned
only on the success path. -/
theorem c9_failed_patch_preserves_node :
    ∀ (selfNode : Node) (props : Props) (reply : Reply AnswerRow),
      (patch selfNode props reply).1 = Outcome.callbackSuccess () ∨
        (patch selfNode props reply).2 = selfNode := by
  intro s p r
  rcases hv : validate p false with e | sp
  · right
    simp [patch, hv]
  · rcases hre : remapConstraintViolation p r.err with _ | e
    · rcases hres : r.results with _ | ⟨row, rest⟩
      · right
        simp [patch, hv, hre, hres]
      · left
        simp [patch, hv, hre, hres]
    · right
      simp [patch, hv, hre]

/-- C10: `create` reads the first result row without a zero-row guard: on an
error-free reply with zero rows it crashes (property access on `undefined`)
instead of invoking the callback, while `get` and `patch` guard this case
with explicit errors; on an error-free reply with at least one row its
success branch returns the entity built from the first row. -/
theorem c10_create_missing_zero_row_guard :
    (∀ props sp : Props,
        validate props false = Except.ok sp →
        create props ⟨none, []⟩ = Outcome.crashed)
    ∧ (∀ (props sp : Props) (row : AnswerRow) (rest : List AnswerRow),
        validate props false = Except.ok sp →
        create props ⟨none, row :: rest⟩ = .callbackSuccess ⟨row.answer⟩)
    ∧ (∀ name : String,
        get name ⟨none, []⟩ =
          .callbackError (.genericError ("No such answer with answername: " ++ name)))
    ∧ (∀ (selfNode : Node) (props sp : Props),
        validate props false = Except.ok sp →
        (patch selfNode props ⟨none, []⟩).1 =
          .callbackError (.genericError
            ("Answer has been deleted! Answername: " ++ jsShow selfNode.answername))) := by
  refine ⟨?_, ?_, ?_, ?_⟩
  · intro props sp hv
    simp [create, hv, remapConstraintViolation, isConstraintViolation]
  · intro props sp row rest hv
    simp [create, hv, remapConstraintViolation, isConstraintViolation]
  · intro name
    simp [get]
  · intro selfNode props sp hv
    simp [patch, hv, remapConstraintViolation, isConstraintViolation]

/-- Witness for C10 at concrete inputs: a valid mapping with an error-free
empty reply crashes `create`, while the same reply is guarded by `get`. -/
theorem c10_create_missing_zero_row_guard_witness :
    create { answername := some "ab" } ⟨none, []⟩ = Outcome.crashed
    ∧ get "ab" ⟨none, []⟩ =
        .callbackError (.genericError ("No such answer with answername: " ++ "ab")) :=
  ⟨c10_create_missing_zero_row_guard.1 { answername := some "ab" }
      { answername := some "ab" } (by decide),
   c10_create_missing_zero_row_guard.2.2.1 "ab"⟩

lemma partitionRows_eq_filter (selfName : Option String) (rows : List FollowRow) :
    partitionRows selfName rows =
      ((rows.filter fun row =>
          decide (selfName ≠ row.other.answername ∧ row.countRel ≠ 0)).map
        fun row => (⟨row.other⟩ : Answer),
       (rows.filter fun row =>
          decide (selfName ≠ row.other.answername ∧ row.countRel = 0)).map
        fun row => (⟨row.other⟩ : Answer)) := by
  induction rows with
  | nil => rfl
  | cons row rows ih =>
    unfold partitionRows
    rw [ih]
    by_cases h1 : selfName = row.other.answername
    · simp [h1, List.filter_cons]
    · by_cases h2 : row.countRel = 0
      · simp [h1, h2, List.filter_cons]
      · simp [h1, h2, List.filter_cons]

/-- C6: on an error-free reply, `getFollowingAndOthers` partitions the result
rows in store order: `following` is exactly the rows whose node's answername
differs from the subject's and whose follows-edge count is nonzero, `others`
is exactly the rows whose node's answername differs and whose count is zero,
each preserving the store's row order (`List.filter` keeps relative order),
and every row whose answername equals the subject's appears in neither list. -/
theorem c6_following_others_partition :
    ∀ (selfNode : Node) (rows : List FollowRow),
      getFollowingAndOthers selfNode ⟨none, rows⟩ =
        Outcome.callbackSuccess
          ((rows.filter fun row =>
              decide (selfNode.answername ≠ row.other.answername ∧ row.countRel ≠ 0)).map
            fun row => (⟨row.other⟩ : Answer),
           (rows.filter fun row =>
              decide (selfNode.answername ≠ row.other.answername ∧ row.countRel = 0)).map
            fun row => (⟨row.other⟩ : Answer)) := by
  intro selfNode rows
  simp [getFollowingAndOthers, partitionRows_eq_filter]

/-- C3 counterexample: `create` with the invalid field value `"a"` throws its
ValidationError synchronously — `validate(props)` runs before `db.cypher`, so
the store is never contacted and the caller's completion callback is never
invoked with either a result or an error, contradicting the claim that the
ValidationError is delivered through the callback. -/
theorem c3_counterexample_validation_error_thrown :
    create { answername := some "a" } ⟨none, []⟩ =
      Outcome.threw (.validationError
        ("Invalid answername (too short). Requirements: " ++ answernameInfo.message)) := by
  decide

/-- C3 (amended): `get`, `getAll`, `del`, `follow`, `unfollow` and
`getFollowingAndOthers` invoke the caller's callback exactly once on every
reply, with either a result or an error and never both; `patch` and `create`
do so whenever their input passes validation — except `create` on an
error-free zero-row reply, which crashes instead — while a validation
failure is thrown synchronously, so the callback is never invoked and the
ValidationError reaches the caller as an exception, not through the
callback. -/
theorem c3_callback_exactly_once_amended :
    (∀ (name : String) (reply : Reply AnswerRow),
        (∃ e, get name reply = .callbackError e) ∨
          (∃ a, get name reply = .callbackSuccess a))
    ∧ (∀ reply : Reply AnswerRow,
        (∃ e, getAll reply = .callbackError e) ∨
          (∃ l, getAll reply = .callbackSuccess l))
    ∧ (∀ err : Option JsError,
        (∃ e, del err = .callbackError e) ∨ del err = .callbackSuccess ())
    ∧ (∀ err : Option JsError,
        (∃ e, follow err = .callbackError e) ∨ follow err = .callbackSuccess ())
    ∧ (∀ err : Option JsError,
        (∃ e, unfollow err = .callbackError e) ∨ unfollow err = .callbackSuccess ())
    ∧ (∀ (selfNode : Node) (reply : Reply FollowRow),
        (∃ e, getFollowingAndOthers selfNode reply = .callbackError e) ∨
          (∃ p, getFollowingAndOthers selfNode reply = .callbackSuccess p))
    ∧ (∀ (selfNode : Node) (props sp : Props) (reply : Reply AnswerRow),
        validate props false = Except.ok sp →
        (∃ e, (patch selfNode props reply).1 = .callbackError e) ∨
          (patch selfNode props reply).1 = .callbackSuccess ())
    ∧ (∀ (props sp : Props) (reply : Reply AnswerRow),
        validate props false = Except.ok sp →
        (reply.err ≠ none ∨ reply.results ≠ []) →
        (∃ e, create props reply = .callbackError e) ∨
          (∃ a, create props reply = .callbackSuccess a))
    ∧ (∀ (selfNode : Node) (props : Props) (reply : Reply AnswerRow) (e : JsError),
        validate props false = Except.error e →
        patch selfNode props reply = (.threw e, selfNode) ∧
          create props reply = .threw e) := by
  refine ⟨?_, ?_, ?_, ?_, ?_, ?_, ?_, ?_, ?_⟩
  · intro name reply
    rcases he : reply.err with _ | e
    · rcases hres : reply.results with _ | ⟨row, rest⟩
      · exact .inl ⟨.genericError ("No such answer with answername: " ++ name),
          by simp [get, he, hres]⟩
      · exact .inr ⟨⟨row.answer⟩, by simp [get, he, hres]⟩
    · exact .inl ⟨e, by simp [get, he]⟩
  · intro reply
    rcases he : reply.err with _ | e
    · exact .inr ⟨reply.results.map fun row => ⟨row.answer⟩, by simp [getAll, he]⟩
    · exact .inl ⟨e, by simp [getAll, he]⟩
  · intro err
    rcases err with _ | e
    · exact .inr rfl
    · exact .inl ⟨e, rfl⟩
  · intro err
    rcases err with _ | e
    · exact .inr rfl
    · exact .inl ⟨e, rfl⟩
  · intro err
    rcases err with _ | e
    · exact .inr rfl
    · exact .inl ⟨e, rfl⟩
  · intro selfNode reply
    rcases he : reply.err with _ | e
    · exact .inr ⟨partitionRows selfNode.answername reply.results,
        by simp [getFollowingAndOthers, he]⟩
    · exact .inl ⟨e, by simp [getFollowingAndOthers, he]⟩
  · intro selfNode props sp reply hv
    rcases hre : remapConstraintViolation props reply.err with _ | e
    · rcases hres : reply.results with _ | ⟨row, rest⟩
      · exact .inl ⟨.genericError
            ("Answer has been deleted! Answername: " ++ jsShow selfNode.answername),
          by simp [patch, hv, hre, hres]⟩
      · exact .inr (by simp [patch, hv, hre, hres])
    · exact .inl ⟨e, by simp [patch, hv, hre]⟩
  · intro props sp reply hv hne
    rcases hre : remapConstraintViolation props reply.err with _ | e
    · rcases hres : reply.results with _ | ⟨row, rest⟩
      · exfalso
        rcases hne with hne | hne
        · apply hne
          revert hre
          unfold remapConstraintViolation
          rcases he : reply.err with _ | e
          · intro
            rfl
          · intro hcontra
            split at hcontra
            · exact Option.noConfusion hcontra
            · exact Option.noConfusion hcontra
        · exact hne hres
      · exact .inr ⟨⟨row.answer⟩, by simp [create, hv, hre, hres]⟩
    · exact .inl ⟨e, by simp [create, hv, hre]⟩
  · intro selfNode props reply e hv
    exact ⟨by simp [patch, hv], by simp [create, hv]⟩

/-- Witness for C3 (amended) at concrete inputs: a one-row error-free reply
to `create` invokes the callback with a result, and a validation failure in
`patch` is thrown with the node left unchanged. -/
theorem c3_callback_exactly_once_amended_witness :
    ((∃ e, create { answername := some "ab" } ⟨none, [⟨⟨some "ab", []⟩⟩]⟩ =
        .callbackError e) ∨
      (∃ a, create { answername := some "ab" } ⟨none, [⟨⟨some "ab", []⟩⟩]⟩ =
        .callbackSuccess a))
    ∧ patch ⟨some "bob", []⟩ { answername := some "a" } ⟨none, []⟩ =
        (.threw (.validationError
          ("Invalid answername (too short). Requirements: " ++ answernameInfo.message)),
         ⟨some "bob", []⟩) :=
  ⟨c3_callback_exactly_once_amended.2.2.2.2.2.2.2.1 { answername := some "ab" }
      { answername := some "ab" } ⟨none, [⟨⟨some "ab", []⟩⟩]⟩ (by decide)
      (Or.inr (by decide)),
   (c3_callback_exactly_once_amended.2.2.2.2.2.2.2.2 ⟨some "bob", []⟩
      { answername := some "a" } ⟨none, []⟩ _ (by decide)).1⟩

end AnswerModel
